import Mathlib

/-!
Verification of the review-acquisition and card-rendering pipeline of the
social-media-operator repository.  The Python sources
(`capture_gmap_review.py`, `google_login.py`, `render_review_card.py`) are
shallowly embedded: review texts, captions and page content are `List Char`
(Python `str`), the post store is a `List Post` (the `posts` array of
`posts.json`), browser effects are abstracted into explicit outcome flags,
and every embedded function mirrors the control flow of its source function.
-/

namespace SMO

/-! ### Python string primitives

Executable models of the Python `str` operations the scripts use:
`strip`, slicing, `in` (substring test), `find`, `startswith`, `lower`. -/

/-- Model of Python `str.lstrip()` over the character list. -/
def pyLStrip (l : List Char) : List Char := l.dropWhile Char.isWhitespace

/-- Model of Python `str.rstrip()` over the character list. -/
def pyRStrip (l : List Char) : List Char :=
  (l.reverse.dropWhile Char.isWhitespace).reverse

/-- Model of Python `str.strip()` (whitespace removed from both ends). -/
def pyStrip (l : List Char) : List Char := pyRStrip (pyLStrip l)

/-- Model of the Python substring test `needle in hay`. -/
def pyInL (needle : List Char) : List Char → Bool
  | [] => needle.isEmpty
  | c :: t => needle.isPrefixOf (c :: t) || pyInL needle t

/-- Substring test on `String`, as used on URLs and page content. -/
def pyInS (needle hay : String) : Bool := pyInL needle.toList hay.toList

/-- Model of Python `str.lower()` (ASCII case folding suffices here). -/
def pyLower (l : List Char) : List Char := l.map Char.toLower

/-- Model of `content.find(c, 1)` restricted to the tail of the string:
index of the first occurrence of `c`, `none` when absent. -/
def pyFindChar (c : Char) : List Char → Option Nat
  | [] => none
  | x :: t => if x == c then some 0 else (pyFindChar c t).map (· + 1)

/-- Model of Python `str.startswith`. -/
def startswith (pre s : String) : Bool := pre.toList.isPrefixOf s.toList

/-! ### The Post Record (one entry of the `posts` array of `posts.json`) -/

/-- A persisted Post Record, with exactly the fields `save_post` writes.
Timestamps and publish identifiers are nullable (`Option`). -/
structure Post where
  uid : String
  status : String
  media : List String
  userDescription : String
  generatedContent : List Char
  source : String
  rating : Nat
  createdAt : Option String
  scheduledAt : Option String
  approvedAt : Option String
  postedAt : Option String
  tweetId : Option String
  tweetUrl : Option String
  igPostId : Option String
  igPermalink : Option String
  poolType : Option String
deriving DecidableEq

/-! ### Post Record Builder (`generate_uid`, `generate_post_content`,
`save_post` of `capture_gmap_review.py`) -/

/-- Embedding of `generate_uid`: `today` is the `%m%d`-formatted current
day; the sequence letter is `chr(ord('a') + len(existing))` where
`existing` are the stored posts whose uid starts with `tw-<today>`. -/
def generate_uid (store : List Post) (today : String) : String :=
  let pfx := "tw-" ++ today
  let existing := store.filter (fun p => startswith pfx p.uid)
  pfx.push (Char.ofNat (97 + existing.length))

/-- The three-dot ellipsis appended to truncated captions. -/
def ellipsis : List Char := ['.', '.', '.']

/-- The caption text that follows the closing quotation mark. -/
def afterQuote : List Char :=
  "\n\nThank you for sharing your experience!\n\nLink to our Google Map in comments.".toList

/-- Embedding of `generate_post_content`: strip the review text, truncate
to 150 characters with a trailing ellipsis, and wrap it in quotation marks
followed by the fixed thank-you blurb.  (`rating` is accepted and unused,
as in the source.) -/
def generate_post_content (review_text : List Char) (rating : Nat) : List Char :=
  let t := pyStrip review_text
  let t := if 150 < t.length then t.take 150 ++ ellipsis else t
  '"' :: (t ++ '"' :: afterQuote)

/-! ### Duplicate Index (`is_duplicate_review`) -/

/-- Recover the stored review text from a caption: the caption must start
with `"`; the text runs to the first following `"`; a trailing ellipsis
(from truncation) is removed.  Mirrors the body of the `for` loop of
`is_duplicate_review`. -/
def unwrapCaption (content : List Char) : Option (List Char) :=
  match content with
  | [] => none
  | c :: rest =>
    if c = '"' then
      match pyFindChar '"' rest with
      | some i =>
        let ex := rest.take i
        some (if ellipsis.isSuffixOf ex then ex.take (ex.length - 3) else ex)
      | none => none
    else none

/-- Whether one stored post matches the candidate's 100-character prefix
`rp`: the post must have source `google-maps` and an equal normalized
prefix after unwrapping its caption. -/
def dupCheckOne (rp : List Char) (p : Post) : Bool :=
  p.source == "google-maps" &&
    (match unwrapCaption p.generatedContent with
     | some ex => (pyStrip ex).take 100 == rp
     | none => false)

/-- Embedding of `is_duplicate_review`: scan the store in insertion order
and return `(true, uid, status)` of the first matching post, else
`(false, none, none)`. -/
def is_duplicate_review (store : List Post) (review_text : List Char) :
    Bool × Option String × Option String :=
  let rp := (pyStrip review_text).take 100
  match store.find? (dupCheckOne rp) with
  | some p => (true, some p.uid, some p.status)
  | none => (false, none, none)

/-- Embedding of `save_post`: build the new Post Record and append it to
the store.  `today` and `now` stand for `datetime.now()`'s `%m%d` day and
ISO timestamp. -/
def save_post (store : List Post) (today now : String) (screenshot_path : String)
    (review_text : List Char) (rating : Nat) (pool_type : Option String) :
    Post × List Post :=
  let post : Post := {
    uid := generate_uid store today
    status := "Pending"
    media := [screenshot_path]
    userDescription := "Google Maps review screenshot (" ++ toString rating ++ " stars)"
    generatedContent := generate_post_content review_text rating
    source := "google-maps"
    rating := rating
    createdAt := some now
    scheduledAt := none
    approvedAt := none
    postedAt := none
    tweetId := none
    tweetUrl := none
    igPostId := none
    igPermalink := none
    poolType := pool_type }
  (post, store ++ [post])

/-! ### Session Authenticator (`google_login.py`)

The post-submission page is a single static state: the password-field
visibility, URL, HTML content (`page.content()`), rendered body text
(`body` inner text) and avatar-element presence the checks read. -/

/-- One post-submission page state observed by the login classifier. -/
structure PageState where
  pwVisible : Bool
  url : String
  content : String
  bodyText : String
  avatarPresent : Bool

/-- The `url_blockers` list of `_check_blocked`. -/
def url_blockers : List String := ["/challenge/", "/interstitialpage", "/speedbump"]

/-- The `content_blockers` list of `_check_blocked`. -/
def content_blockers : List String :=
  ["2-step verification", "confirm your recovery phone", "unusual activity",
   "this device isn't recognized"]

/-- Blocked-URL signal: some blocker fragment occurs in the lowered URL. -/
def urlBlockedSig (s : PageState) : Bool :=
  url_blockers.any (fun b => pyInL b.toList (pyLower s.url.toList))

/-- Body blocker-text signal over the lowered page content. -/
def contentBlockedSig (s : PageState) : Bool :=
  content_blockers.any (fun b => pyInL b.toList (pyLower s.content.toList))

/-- CAPTCHA signal: `recaptcha` or `g-recaptcha` in the lowered content. -/
def recaptchaSig (s : PageState) : Bool :=
  pyInL "recaptcha".toList (pyLower s.content.toList) ||
    pyInL "g-recaptcha".toList (pyLower s.content.toList)

/-- Embedding of `_check_blocked`: a visible password field is never
blocked; otherwise URL blockers, then content blockers, then CAPTCHA
markers each yield blocked. -/
def check_blocked (s : PageState) : Bool :=
  if s.pwVisible then false
  else if urlBlockedSig s then true
  else if contentBlockedSig s then true
  else if recaptchaSig s then true
  else false

/-- The `success_indicators` URL fragments of `google_login`. -/
def success_indicators : List String :=
  ["myaccount.google.com", "mail.google.com", "accounts.google.com/Default",
   "accounts.google.com/SignOutOptions", "google.com/maps"]

/-- The `failure_indicators` URL fragments of `google_login`. -/
def failure_indicators : List String :=
  ["accounts.google.com/signin", "accounts.google.com/v3/signin", "challenge"]

/-- Success-URL signal: some success fragment occurs in the raw URL. -/
def urlSuccessSig (s : PageState) : Bool :=
  success_indicators.any (fun i => pyInS i s.url)

/-- Failure-URL signal: some failure fragment occurs in the raw URL. -/
def urlFailureSig (s : PageState) : Bool :=
  failure_indicators.any (fun i => pyInS i s.url)

/-- The signed-in body-text signals, including the account-name fragment
before the `@` of the email. -/
def signed_in_signals (email : String) : List String :=
  ["Sign out", "My Account", "Google Account",
   String.mk (email.toList.takeWhile (fun c => c ≠ '@'))]

/-- Signed-in body-text signal, compared case-insensitively. -/
def bodySignedInSig (email : String) (s : PageState) : Bool :=
  (signed_in_signals email).any
    (fun sig => pyInL (pyLower sig.toList) (pyLower s.bodyText.toList))

/-- One iteration of the failure-indicator loop of `google_login`: when
the indicator occurs in the URL, an avatar element proves success, a
blocked state proves failure, and otherwise the loop continues. -/
def failStep (s : PageState) (ind : String) : Option Bool :=
  if pyInS ind s.url then
    if s.avatarPresent then some true
    else if check_blocked s then some false
    else none
  else none

/-- Embedding of the post-submission outcome classification of
`google_login` (its lines after password entry), over one static page
state: blocked check, success URLs, failure URLs with avatar rescue,
signed-in body text, and the optimistic no-blocker default. -/
def google_login_classify (email : String) (s : PageState) : Bool :=
  if check_blocked s then false
  else if urlSuccessSig s then true
  else match failure_indicators.findSome? (failStep s) with
    | some b => b
    | none =>
      if bodySignedInSig email s then true
      else if !check_blocked s then true
      else false

/-- Modelled from the spec's priority list (§4.1): password field first,
then blocked URL, then success URL, then failure URL with avatar, then
blocker body text, then signed-in body text, then the optimistic
default.  This is the claim's ordering, to be compared with
`google_login_classify`. -/
def spec_classify (email : String) (s : PageState) : Bool :=
  if s.pwVisible then true
  else if urlBlockedSig s then false
  else if urlSuccessSig s then true
  else if urlFailureSig s && s.avatarPresent then true
  else if contentBlockedSig s || recaptchaSig s then false
  else if bodySignedInSig email s then true
  else if !(urlBlockedSig s || contentBlockedSig s || recaptchaSig s) then true
  else false

/-- The amended priority order: the body blocker signals are evaluated
together with the blocked-URL signal, before any success check. -/
def spec_classify_amended (email : String) (s : PageState) : Bool :=
  if s.pwVisible then true
  else if urlBlockedSig s || (contentBlockedSig s || recaptchaSig s) then false
  else if urlSuccessSig s then true
  else if urlFailureSig s && s.avatarPresent then true
  else if bodySignedInSig email s then true
  else true

/-- A page state whose URL matches a success pattern while the body
carries a 2-step-verification blocker text. -/
def mixedSignalState : PageState :=
  { pwVisible := false
    url := "https://myaccount.google.com/"
    content := "2-step verification"
    bodyText := ""
    avatarPresent := false }

/-! ### Review Discovery Engine (`find_best_review`)

A visible review card is abstracted to its parsed fields; the browser
extraction (selectors, aria-labels) is outside the embedding. -/

/-- A parsed review card: rating (0 when undetermined), text, reviewer. -/
structure Card where
  rating : Nat
  text : List Char
  name : String
deriving DecidableEq

/-- The Python sort key `(x['rating'], len(x['text']))`. -/
def candKey (c : Card) : Nat × Nat := (c.rating, c.text.length)

/-- Lexicographic order on sort keys. -/
def keyLeB (p q : Nat × Nat) : Bool :=
  decide (p.1 < q.1 ∨ (p.1 = q.1 ∧ p.2 ≤ q.2))

/-- `a` may precede `b` in the descending sort: its key is at least
`b`'s.  Ties keep original order, matching Python's stable
`sort(reverse=True)`. -/
def candDescLe (a b : Card) : Bool := keyLeB (candKey b) (candKey a)

/-- Stable insertion of one element into a sorted list. -/
def stableInsert {α : Type} (le : α → α → Bool) (a : α) : List α → List α
  | [] => [a]
  | b :: t => if le a b then a :: b :: t else b :: stableInsert le a t

/-- Stable sort (models Python's stable `list.sort` with a total
preorder; any stable sort produces the same output list). -/
def stableSort {α : Type} (le : α → α → Bool) : List α → List α
  | [] => []
  | a :: t => stableInsert le a (stableSort le t)

/-- Candidate filter of `find_best_review`: among the first 20 cards,
keep those with rating at least 4, non-empty text longer than 10, and no
Duplicate Index match. -/
def reviewCandidates (store : List Post) (cards : List Card) : List Card :=
  (cards.take 20).filter (fun c =>
    decide (4 ≤ c.rating) && !c.text.isEmpty && decide (10 < c.text.length) &&
      !(is_duplicate_review store c.text).1)

/-- Embedding of `find_best_review`: no cards yields none; otherwise the
candidates are sorted descending by `(rating, len(text))` and the first
is returned (none when no candidate survives the filter). -/
def find_best_review (store : List Post) (cards : List Card) : Option Card :=
  if cards.isEmpty then none
  else (stableSort candDescLe (reviewCandidates store cards)).head?

/-- Scenario B card 1: rating 5, text length 20. -/
def cardB1 : Card := { rating := 5, text := List.replicate 20 'a', name := "A" }

/-- Scenario B card 2: rating 3, text length 50. -/
def cardB2 : Card := { rating := 3, text := List.replicate 50 'b', name := "B" }

/-- Scenario B card 3: rating 5, text length 80. -/
def cardB3 : Card := { rating := 5, text := List.replicate 80 'c', name := "C" }

/-- The three discovered cards of Scenario B. -/
def scenarioBCards : List Card := [cardB1, cardB2, cardB3]

/-! ### Capture Strategy (`screenshot_review_card`) -/

/-- A Playwright bounding box (integral coordinates). -/
structure BBox where
  x : Int
  y : Int
  width : Int
  height : Int
deriving DecidableEq

/-- A clip rectangle handed to `page.screenshot`. -/
structure Clip where
  x : Int
  y : Int
  width : Int
  height : Int
deriving DecidableEq

/-- The fallback clip computed by `screenshot_review_card`: origin
shifted by the 16-px padding and clamped at 0, size grown by twice the
padding. -/
def fallback_clip (b : BBox) : Clip :=
  { x := max 0 (b.x - 16)
    y := max 0 (b.y - 16)
    width := b.width + 16 * 2
    height := b.height + 16 * 2 }

/-- Embedding of `screenshot_review_card`: the primary element shot, a
clipped full-page shot when the bounding box is obtainable, else failure.
Returns whether a screenshot was produced and the clip used, if any.
`primaryOk` models `card.screenshot` succeeding, `box` the result of
`card.bounding_box()`, and `clipShotOk` the clipped `page.screenshot`
succeeding. -/
def screenshot_review_card (primaryOk : Bool) (box : Option BBox)
    (clipShotOk : Bool) : Bool × Option Clip :=
  if primaryOk then (true, none)
  else
    match box with
    | some b => if clipShotOk then (true, some (fallback_clip b)) else (false, none)
    | none => (false, none)

/-- Modelled from the spec: the bounding box expanded by exactly 16 px on
all four sides and then clamped to (intersected with) the viewport
`vw × vh`.  This is the claim's clip, to be compared with
`fallback_clip`. -/
def spec_clip (vw vh : Int) (b : BBox) : Clip :=
  let left := max 0 (b.x - 16)
  let top := max 0 (b.y - 16)
  let right := min vw (b.x + b.width + 16)
  let bottom := min vh (b.y + b.height + 16)
  { x := left, y := top, width := right - left, height := bottom - top }

/-- Modelled from the amended claim: padding 16 with the left and top
edges clamped at 0 and the size always grown by 32, with no clamp at the
right or bottom viewport edges. -/
def spec_clip_amended (b : BBox) : Clip :=
  { x := max 0 (b.x - 16)
    y := max 0 (b.y - 16)
    width := b.width + 32
    height := b.height + 32 }

/-- A bounding box flush with the viewport origin. -/
def cornerBox : BBox := { x := 0, y := 0, width := 100, height := 50 }

/-! ### Capture pipeline (`capture_google_maps_review`)

Browser effects are explicit outcome flags; the store is threaded
explicitly.  The flags stand for: place navigation succeeded, the
Reviews tab opened, the parsed visible cards, the element/clip
screenshot succeeded, and the HTML fallback card rendered without
raising. -/

/-- The abstract outcomes of one capture run's browser interactions. -/
structure CaptureEnv where
  navFound : Bool
  reviewsOk : Bool
  cards : List Card
  screenshotOk : Bool
  renderOk : Bool
  today : String
  now : String
  timestamp : String

/-- The terminal outcome of `capture_google_maps_review` (the returned
dict, or `None` on failure). -/
inductive CaptureResult where
  | success (uid : String) (rating : Nat) (screenshot : String)
      (text : List Char) (name : String)
  | fallbackDone (uid : String) (rating : Nat) (screenshot : String)
      (text : List Char) (name : String)
  | duplicate (uid status : Option String) (text : List Char)
  | failure
deriving DecidableEq

/-- The hard-coded fallback review text. -/
def fallbackText : List Char :=
  ("Great service and wonderful experience! " ++
   "Highly professional team that really cares about the result. " ++
   "Will definitely be coming back. Highly recommend!").toList

/-- The screenshot artifact path `gmap_review_<timestamp>.png`. -/
def gmapPath (timestamp : String) : String :=
  "screenshots/gmap_review_" ++ timestamp ++ ".png"

/-- The direct-capture path: discovery, duplicate check, element
screenshot, save.  `none` means control falls through to the rendered
fallback card (no card found, or the screenshot failed). -/
def directResult (env : CaptureEnv) (store : List Post) :
    Option (CaptureResult × List Post) :=
  if env.reviewsOk then
    match find_best_review store env.cards with
    | some best =>
      if (is_duplicate_review store best.text).1 then
        some (.duplicate (is_duplicate_review store best.text).2.1
          (is_duplicate_review store best.text).2.2 best.text, store)
      else if env.screenshotOk then
        some (.success
          (save_post store env.today env.now (gmapPath env.timestamp)
            best.text best.rating none).1.uid
          best.rating (gmapPath env.timestamp) best.text best.name,
          (save_post store env.today env.now (gmapPath env.timestamp)
            best.text best.rating none).2)
      else none
    | none => none
  else none

/-- The rendered-card fallback path: duplicate check on the fixed text,
HTML render (a raised exception yields the outer `except` and `None`),
save. -/
def fallbackResult (env : CaptureEnv) (store : List Post) :
    CaptureResult × List Post :=
  if (is_duplicate_review store fallbackText).1 then
    (.duplicate (is_duplicate_review store fallbackText).2.1
      (is_duplicate_review store fallbackText).2.2 fallbackText, store)
  else if env.renderOk then
    (.fallbackDone
      (save_post store env.today env.now (gmapPath env.timestamp)
        fallbackText 5 none).1.uid
      5 (gmapPath env.timestamp) fallbackText "A. Smith",
      (save_post store env.today env.now (gmapPath env.timestamp)
        fallbackText 5 none).2)
  else (.failure, store)

/-- Embedding of `capture_google_maps_review`: failed navigation aborts
with no store change; otherwise the direct path runs and, when it falls
through, the rendered fallback path. -/
def capture_run (env : CaptureEnv) (store : List Post) :
    CaptureResult × List Post :=
  if !env.navFound then (.failure, store)
  else
    match directResult env store with
    | some r => r
    | none => fallbackResult env store

/-- A run whose navigation succeeds but whose reviews tab and fallback
renderer both fail. -/
def failedRunEnv : CaptureEnv :=
  { navFound := true, reviewsOk := false, cards := [], screenshotOk := false,
    renderOk := false, today := "0101", now := "2025-01-01T00:00:00",
    timestamp := "20250101_000000" }

/-! ### Card Renderer (`render_review_card.py`)

`render_card` probes the template backend (HTML template file, Playwright
import, browser launch, template render) and falls back to the Pillow
raster backend; the probe outcomes are explicit flags. -/

/-- Which backend produced the PNG. -/
inductive RenderBackend where
  | template
  | pillow
deriving DecidableEq

/-- Availability flags for one `render_card` invocation. -/
structure RenderEnv where
  templateExists : Bool
  playwrightImportable : Bool
  browserLaunches : Bool
  templateRenderOk : Bool
  pillowOk : Bool
  timestamp : String

/-- The timestamped output path `review_card_<timestamp>.png`, computed
once and shared by both backends. -/
def render_output_path (env : RenderEnv) : String :=
  "screenshots/review_card_" ++ env.timestamp ++ ".png"

/-- Embedding of `render_card_pillow`'s availability behaviour: it
raises (models the `RuntimeError` on a missing Pillow) or returns the
path it saved to. -/
def render_card_pillow_run (env : RenderEnv) (output_path : String) :
    Except String (String × RenderBackend) :=
  if env.pillowOk then .ok (output_path, .pillow)
  else .error "Pillow is required for browser-free rendering."

/-- Embedding of `render_card`: template backend first — missing
template file, failed Playwright import, failed browser launch and a
raising template render each hand control to the Pillow backend with the
same output path; only a Pillow failure propagates as an error. -/
def render_card_run (env : RenderEnv) : Except String (String × RenderBackend) :=
  if env.templateExists then
    if env.playwrightImportable then
      if env.browserLaunches then
        if env.templateRenderOk then .ok (render_output_path env, .template)
        else render_card_pillow_run env (render_output_path env)
      else render_card_pillow_run env (render_output_path env)
    else render_card_pillow_run env (render_output_path env)
  else render_card_pillow_run env (render_output_path env)

/-! ### Raster backend geometry (`render_card_pillow`)

Only the canvas geometry is embedded: the drawing primitives do not
affect the saved image's dimensions.  `pyWrap` models Python
`textwrap.wrap` (greedy fill, long words broken at the width). -/

/-- Accumulating word splitter (Python `str.split()` semantics:
any-whitespace separators, empty pieces dropped). -/
def wordsOfAux : List Char → List Char → List (List Char)
  | [], acc => if acc.isEmpty then [] else [acc.reverse]
  | c :: rest, acc =>
    if c.isWhitespace then
      if acc.isEmpty then wordsOfAux rest [] else acc.reverse :: wordsOfAux rest []
    else wordsOfAux rest (c :: acc)

/-- The whitespace-separated words of a text. -/
def wordsOf (l : List Char) : List (List Char) := wordsOfAux l []

/-- Fuel-indexed splitting of an over-long word into width-sized chunks. -/
def chunksOfAux (width : Nat) : Nat → List Char → List (List Char)
  | 0, l => [l]
  | fuel + 1, l =>
    if l.length ≤ width ∨ width = 0 then [l]
    else l.take width :: chunksOfAux width fuel (l.drop width)

/-- Split a word into chunks of at most `width` characters. -/
def chunksOf (width : Nat) (l : List Char) : List (List Char) :=
  chunksOfAux width l.length l

/-- Greedy line filling over the word list, carrying the current line;
an over-long word is broken into width chunks whose last piece continues
the current line. -/
def fillLines (width : Nat) : List (List Char) → List Char → List (List Char)
  | [], cur => if cur.isEmpty then [] else [cur]
  | w :: ws, cur =>
    if cur.isEmpty then
      if w.length ≤ width then fillLines width ws w
      else (chunksOf width w).dropLast ++
        fillLines width ws ((chunksOf width w).getLastD [])
    else if cur.length + 1 + w.length ≤ width then
      fillLines width ws (cur ++ ' ' :: w)
    else
      cur :: (if w.length ≤ width then fillLines width ws w
        else (chunksOf width w).dropLast ++
          fillLines width ws ((chunksOf width w).getLastD []))

/-- Model of `textwrap.wrap(text, width)`. -/
def pyWrap (width : Nat) (text : List Char) : List (List Char) :=
  fillLines width (wordsOf text) []

/-- The output dimensions of `render_card_pillow`: the fixed 580-px
width, and the dynamic card height — fixed section heights plus one
48-px (2×-scaled) line per wrapped text line, downscaled by the 2×
factor.  All inputs other than `text` are accepted as in the source and
do not enter the height formula. -/
def render_card_pillow_dims (name : String) (rating : Nat) (text : List Char)
    (date store badge : String) : Nat × Nat :=
  let W := 580
  let SCALE := 2
  let lines := if (pyWrap 58 text).isEmpty then [([] : List Char)] else pyWrap 58 text
  let LINE_H := 24 * SCALE
  let HEADER_H := (26 + 14) * SCALE
  let SEP1_H := (1 + 16) * SCALE
  let REVIEWER_H := (40 + 16) * SCALE
  let STARS_H := (18 + 14) * SCALE
  let TEXT_H := lines.length * LINE_H
  let SEP2_H := (14 + 1 + 14) * SCALE
  let FOOTER_H := 18 * SCALE
  let card_h := 28 * SCALE + HEADER_H + SEP1_H + REVIEWER_H + STARS_H + TEXT_H +
    SEP2_H + FOOTER_H + 24 * SCALE
  (W, card_h / SCALE)

/-- A 117-character text that is a single unbroken word. -/
def sameLengthTextA : List Char := List.replicate 117 'a'

/-- A 117-character text made of two 58-character words. -/
def sameLengthTextB : List Char :=
  List.replicate 58 'a' ++ ' ' :: List.replicate 58 'a'

/-! ### Concrete fixtures used by witnesses and counterexamples -/

/-- A store exhibiting a uid collision: two same-day records whose
sequence letters are `a` and `c` but not `b` (the letters are not the
first two of the alphabet). -/
def uidBadStore : List Post :=
  [{ uid := "tw-0101a", status := "Posted", media := [], userDescription := "",
     generatedContent := [], source := "google-maps", rating := 5,
     createdAt := none, scheduledAt := none, approvedAt := none, postedAt := none,
     tweetId := some "1", tweetUrl := none, igPostId := none, igPermalink := none,
     poolType := none },
   { uid := "tw-0101c", status := "Pending", media := [], userDescription := "",
     generatedContent := [], source := "google-maps", rating := 5,
     createdAt := none, scheduledAt := none, approvedAt := none, postedAt := none,
     tweetId := none, tweetUrl := none, igPostId := none, igPermalink := none,
     poolType := none }]

/-- The single record of the sequential witness store below. -/
def uidSeqPost : Post :=
  { uid := "tw-0101a", status := "Pending", media := [], userDescription := "",
    generatedContent := [], source := "google-maps", rating := 5,
    createdAt := none, scheduledAt := none, approvedAt := none, postedAt := none,
    tweetId := none, tweetUrl := none, igPostId := none, igPermalink := none,
    poolType := none }

/-- A one-record store produced by sequential use of the builder. -/
def uidSeqStore : List Post := [uidSeqPost]

/-- A quotation-free review text for the reflexivity witness. -/
def dupWitnessText : List Char := "Amazing experience with a friendly team".toList

/-- A review text containing an embedded double quotation mark: the
caption unwrapping of `is_duplicate_review` stops at that inner quote. -/
def dupQuoteText : List Char :=
  "He said \"wow\" and we absolutely loved this place".toList

end SMO

namespace SMO

/-! ### Helper lemmas about uid generation -/

lemma isPrefixOf_append_self (l t : List Char) : l.isPrefixOf (l ++ t) = true := by
  induction l with
  | nil => simp [List.isPrefixOf]
  | cons a as ih => simp [List.isPrefixOf, ih]

lemma startswith_push (pre : String) (c : Char) : startswith pre (pre.push c) = true := by
  cases pre with
  | mk data => exact isPrefixOf_append_self data [c]

lemma push_right_inj {pre : String} {a b : Char} (h : pre.push a = pre.push b) : a = b := by
  cases pre with
  | mk data =>
    have : data ++ [a] = data ++ [b] := congrArg String.data h
    simpa using this

lemma char_seq_inj : ∀ i, i < 26 → ∀ k, k < 26 →
    Char.ofNat (97 + i) = Char.ofNat (97 + k) → i = k := by decide

/-! ### Helper lemmas about stripping and caption unwrapping -/

lemma dropWhile_idem (p : Char → Bool) (l : List Char) :
    List.dropWhile p (List.dropWhile p l) = List.dropWhile p l := by
  induction l with
  | nil => rfl
  | cons a t ih =>
    rw [List.dropWhile_cons]
    split
    · exact ih
    · rw [List.dropWhile_cons]
      simp [*]

lemma pyLStrip_idem (l : List Char) : pyLStrip (pyLStrip l) = pyLStrip l :=
  dropWhile_idem _ l

lemma pyRStrip_idem (l : List Char) : pyRStrip (pyRStrip l) = pyRStrip l := by
  unfold pyRStrip
  rw [List.reverse_reverse, dropWhile_idem]

lemma pyLStrip_pyRStrip_of_lstripped (l : List Char) (h : pyLStrip l = l) :
    pyLStrip (pyRStrip l) = pyRStrip l := by
  obtain ⟨t, ht⟩ : ∃ t, l = pyRStrip l ++ t := by
    refine ⟨(l.reverse.takeWhile Char.isWhitespace).reverse, ?_⟩
    unfold pyRStrip
    conv_lhs => rw [← List.reverse_reverse l]
    rw [← List.takeWhile_append_dropWhile Char.isWhitespace l.reverse]
    rw [List.reverse_append]
    simp
  cases hr : pyRStrip l with
  | nil => rfl
  | cons c cs =>
    have hl : l = c :: (cs ++ t) := by rw [ht, hr]; rfl
    have hc : Char.isWhitespace c = false := by
      by_contra hcc
      rw [Bool.not_eq_false] at hcc
      have hlen := (List.dropWhile_sublist (l := cs ++ t) Char.isWhitespace).length_le
      have hcontra := h
      rw [hl] at hcontra
      unfold pyLStrip at hcontra
      rw [List.dropWhile_cons, if_pos hcc] at hcontra
      have hlc := congrArg List.length hcontra
      rw [List.length_cons] at hlc
      omega
    show pyLStrip (c :: cs) = c :: cs
    unfold pyLStrip
    rw [List.dropWhile_cons, if_neg (by simp [hc])]

lemma pyStrip_idem (l : List Char) : pyStrip (pyStrip l) = pyStrip l := by
  unfold pyStrip
  rw [pyLStrip_pyRStrip_of_lstripped _ (pyLStrip_idem l), pyRStrip_idem]

lemma pyFindChar_append (c : Char) (l₁ l₂ : List Char) (h : c ∉ l₁) :
    pyFindChar c (l₁ ++ c :: l₂) = some l₁.length := by
  induction l₁ with
  | nil => simp [pyFindChar]
  | cons a s ih =>
    have hne : a ≠ c := fun hac => h (hac ▸ List.mem_cons_self a s)
    have ha : (a == c) = false := by simp [hne]
    simp [pyFindChar, ha, ih (fun hm => h (List.mem_cons_of_mem _ hm))]

lemma is_dup_false_find_none {store : List Post} {t : List Char}
    (h : (is_duplicate_review store t).1 = false) :
    store.find? (dupCheckOne ((pyStrip t).take 100)) = none := by
  simp only [is_duplicate_review] at h
  cases hf : store.find? (dupCheckOne ((pyStrip t).take 100)) with
  | none => rfl
  | some p => rw [hf] at h; simp at h

end SMO

/-- C2 counterexample: the claim fails on a review text containing an
embedded double quotation mark — the text is accepted (long enough, not a
duplicate of the empty store), yet after saving it the Duplicate Index
does not recognize it again, because caption unwrapping stops at the
inner quote. -/
theorem SMO.is_duplicate_reflexive_counterexample :
    10 < SMO.dupQuoteText.length ∧
    (SMO.is_duplicate_review [] SMO.dupQuoteText).1 = false ∧
    (SMO.is_duplicate_review
      (SMO.save_post [] "0101" "2025-01-01T00:00:00" "screenshots/r.png"
        SMO.dupQuoteText 5 none).2 SMO.dupQuoteText).1 = false := by decide

/-- C2 (amended): for an accepted review text whose stripped form contains
no double quotation mark, has at most 150 characters (no truncation) and
does not itself end in an ellipsis, saving it and re-running the
Duplicate Index on the same text returns `true` with the stored record's
uid and status. -/
theorem SMO.is_duplicate_reflexive (store : List SMO.Post)
    (today now path : String) (t : List Char) (rating : Nat)
    (hq : '"' ∉ SMO.pyStrip t)
    (hlen : (SMO.pyStrip t).length ≤ 150)
    (hell : SMO.ellipsis.isSuffixOf (SMO.pyStrip t) = false)
    (hnew : (SMO.is_duplicate_review store t).1 = false) :
    SMO.is_duplicate_review (SMO.save_post store today now path t rating none).2 t
      = (true, some (SMO.generate_uid store today), some "Pending") := by
  have hfn := SMO.is_dup_false_find_none hnew
  have hT : SMO.generate_post_content t rating
      = '"' :: (SMO.pyStrip t ++ '"' :: SMO.afterQuote) := by
    simp only [SMO.generate_post_content]
    rw [if_neg (by omega)]
  have hfind : SMO.pyFindChar '"' (SMO.pyStrip t ++ '"' :: SMO.afterQuote)
      = some (SMO.pyStrip t).length := SMO.pyFindChar_append _ _ _ hq
  have hunwrap : SMO.unwrapCaption (SMO.generate_post_content t rating)
      = some (SMO.pyStrip t) := by
    rw [hT]
    simp [SMO.unwrapCaption, hfind, hell, List.take_left]
  have hone : SMO.dupCheckOne ((SMO.pyStrip t).take 100)
      (SMO.save_post store today now path t rating none).1 = true := by
    simp only [SMO.dupCheckOne, SMO.save_post]
    rw [hunwrap]
    simp [SMO.pyStrip_idem]
  show SMO.is_duplicate_review
      (store ++ [(SMO.save_post store today now path t rating none).1]) t = _
  simp only [SMO.is_duplicate_review]
  rw [List.find?_append, hfn, Option.none_or,
    List.find?_cons_of_pos _ hone]
  rfl

/-- C2 witness: a concrete quotation-free text saved into the empty store
is immediately re-detected as a duplicate of itself, carrying the new
record's uid and `Pending` status. -/
theorem SMO.is_duplicate_reflexive_witness :
    SMO.is_duplicate_review
      (SMO.save_post [] "0101" "2025-01-01T00:00:00" "screenshots/r.png"
        SMO.dupWitnessText 5 none).2 SMO.dupWitnessText
      = (true, some "tw-0101a", some "Pending") := by
  have h := SMO.is_duplicate_reflexive [] "0101" "2025-01-01T00:00:00"
    "screenshots/r.png" SMO.dupWitnessText 5 (by decide) (by decide) (by decide)
    (by decide)
  rw [h]
  decide

namespace SMO

/-! ### Helper lemmas for the login classifier -/

lemma failStep_ne_some_false (s : PageState) (hcb : check_blocked s = false)
    (ind : String) : ∀ b, failStep s ind = some b → b = true := by
  intro b h
  unfold failStep at h
  split at h
  · split at h
    · simpa using h.symm
    · rw [hcb] at h
      simp at h
  · simp at h

lemma findSome_failStep_dichot (s : PageState) (hcb : check_blocked s = false) :
    ∀ l : List String,
      l.findSome? (failStep s) = some true ∨ l.findSome? (failStep s) = none := by
  intro l
  induction l with
  | nil => right; rfl
  | cons a t ih =>
    rw [List.findSome?_cons]
    cases hfs : failStep s a with
    | none => simpa using ih
    | some b =>
      have hb := failStep_ne_some_false s hcb a b hfs
      subst hb
      left
      rfl

lemma classify_eq_not_blocked (email : String) (s : PageState) :
    google_login_classify email s = !check_blocked s := by
  unfold google_login_classify
  cases hcb : check_blocked s with
  | true => simp
  | false =>
    simp only [Bool.false_eq_true, if_false, Bool.not_false]
    rcases findSome_failStep_dichot s hcb failure_indicators with hd | hd
    · cases hsucc : urlSuccessSig s <;> simp [hd, hsucc]
    · cases hsucc : urlSuccessSig s <;> cases hbody : bodySignedInSig email s <;>
        simp [hd, hsucc, hbody, hcb]

lemma spec_amended_eq_not_blocked (email : String) (s : PageState) :
    spec_classify_amended email s = !check_blocked s := by
  unfold spec_classify_amended check_blocked
  cases hpw : s.pwVisible with
  | true => simp
  | false =>
    cases h1 : urlBlockedSig s with
    | true => simp
    | false =>
      cases h2 : contentBlockedSig s with
      | true => simp
      | false =>
        cases h3 : recaptchaSig s with
        | true => simp
        | false =>
          simp only [Bool.false_eq_true, if_false, Bool.or_self, Bool.or_false,
            Bool.not_false]
          cases h4 : urlSuccessSig s <;>
            cases h5 : urlFailureSig s && s.avatarPresent <;>
              cases h6 : bodySignedInSig email s <;>
                simp [h4, h5, h6]

end SMO

/-- C1 counterexample: on a page whose URL matches a success pattern but
whose body carries 2-step-verification text, the spec's priority order
classifies Success while the code classifies Blocked — the code runs the
body-blocker check (inside `_check_blocked`) before the success-URL
check. -/
theorem SMO.google_login_priority_counterexample :
    SMO.spec_classify "user@example.com" SMO.mixedSignalState = true ∧
    SMO.google_login_classify "user@example.com" SMO.mixedSignalState = false := by
  decide

/-- C1 (amended): the classifier evaluates the still-visible password
field first, then the blocked-URL and blocker-body-text signals together
(the full `_check_blocked` predicate) before any success check; on a
static page the remaining checks all yield Success, so the outcome equals
the amended priority order for every page state. -/
theorem SMO.google_login_priority_amended (email : String) (s : SMO.PageState) :
    SMO.google_login_classify email s = SMO.spec_classify_amended email s :=
  (SMO.classify_eq_not_blocked email s).trans
    (SMO.spec_amended_eq_not_blocked email s).symm

namespace SMO

/-! ### Helper lemmas about the stable sort -/

lemma stableInsert_perm {α : Type} (le : α → α → Bool) (a : α) (l : List α) :
    (stableInsert le a l).Perm (a :: l) := by
  induction l with
  | nil => exact List.Perm.refl _
  | cons b t ih =>
    unfold stableInsert
    split
    · exact List.Perm.refl _
    · exact (List.Perm.cons b ih).trans (List.Perm.swap a b t)

lemma stableSort_perm {α : Type} (le : α → α → Bool) (l : List α) :
    (stableSort le l).Perm l := by
  induction l with
  | nil => exact List.Perm.refl _
  | cons a t ih => exact (stableInsert_perm le a _).trans (List.Perm.cons a ih)

lemma stableInsert_pairwise {α : Type} (le : α → α → Bool)
    (htot : ∀ a b, le a b = true ∨ le b a = true)
    (htrans : ∀ a b c, le a b = true → le b c = true → le a c = true)
    (a : α) (l : List α) (hl : l.Pairwise (fun x y => le x y = true)) :
    (stableInsert le a l).Pairwise (fun x y => le x y = true) := by
  induction l with
  | nil => simp [stableInsert]
  | cons b t ih =>
    unfold stableInsert
    rcases List.pairwise_cons.mp hl with ⟨hbt, htp⟩
    split
    · rename_i hab
      refine List.pairwise_cons.mpr ⟨?_, hl⟩
      intro x hx
      rcases List.mem_cons.mp hx with rfl | hx
      · exact hab
      · exact htrans a b x hab (hbt x hx)
    · rename_i hab
      have hba : le b a = true := (htot a b).resolve_left (by simpa using hab)
      refine List.pairwise_cons.mpr ⟨?_, ih htp⟩
      intro x hx
      have hx' : x = a ∨ x ∈ t := by
        have := (stableInsert_perm le a t).mem_iff.mp hx
        simpa using this
      rcases hx' with rfl | hx'
      · exact hba
      · exact hbt x hx'

lemma stableSort_pairwise {α : Type} (le : α → α → Bool)
    (htot : ∀ a b, le a b = true ∨ le b a = true)
    (htrans : ∀ a b c, le a b = true → le b c = true → le a c = true)
    (l : List α) :
    (stableSort le l).Pairwise (fun x y => le x y = true) := by
  induction l with
  | nil => simp [stableSort]
  | cons a t ih => exact stableInsert_pairwise le htot htrans a _ ih

lemma candDescLe_total (a b : Card) :
    candDescLe a b = true ∨ candDescLe b a = true := by
  simp only [candDescLe, keyLeB, decide_eq_true_eq]
  omega

lemma candDescLe_trans (a b c : Card) :
    candDescLe a b = true → candDescLe b c = true → candDescLe a c = true := by
  simp only [candDescLe, keyLeB, decide_eq_true_eq]
  omega

end SMO

/-- C3: in every discovery pass, a card among the first twenty becomes a
candidate iff its rating is at least 4, its text length exceeds 10 and
the Duplicate Index reports no match; and any returned card is a
candidate that is maximal under the descending `(rating, len(text))`
key — every other candidate has a lower rating, or an equal rating and
text no longer. -/
theorem SMO.find_best_review_spec (store : List SMO.Post) (cards : List SMO.Card) :
    (∀ c, c ∈ SMO.reviewCandidates store cards ↔
      (c ∈ cards.take 20 ∧ 4 ≤ c.rating ∧ 10 < c.text.length ∧
        (SMO.is_duplicate_review store c.text).1 = false)) ∧
    (∀ b, SMO.find_best_review store cards = some b →
      b ∈ SMO.reviewCandidates store cards ∧
        ∀ c ∈ SMO.reviewCandidates store cards,
          c.rating < b.rating ∨
            (c.rating = b.rating ∧ c.text.length ≤ b.text.length)) := by
  constructor
  · intro c
    simp only [SMO.reviewCandidates, List.mem_filter, Bool.and_eq_true,
      decide_eq_true_eq, Bool.not_eq_true']
    constructor
    · rintro ⟨hm, ⟨⟨⟨h4, hne⟩, h10⟩, hdup⟩⟩
      exact ⟨hm, h4, h10, hdup⟩
    · rintro ⟨hm, h4, h10, hdup⟩
      have hne : c.text.isEmpty = false := by
        cases htext : c.text with
        | nil => rw [htext] at h10; simp at h10
        | cons x xs => rfl
      exact ⟨hm, ⟨⟨⟨h4, hne⟩, h10⟩, hdup⟩⟩
  · intro b hb
    unfold SMO.find_best_review at hb
    split at hb
    · simp at hb
    · cases hsl : SMO.stableSort SMO.candDescLe (SMO.reviewCandidates store cards) with
      | nil => rw [hsl] at hb; simp at hb
      | cons x tl =>
        rw [hsl] at hb
        simp only [List.head?_cons, Option.some.injEq] at hb
        subst hb
        have hperm := (SMO.stableSort_perm SMO.candDescLe
          (SMO.reviewCandidates store cards))
        rw [hsl] at hperm
        have hpw := SMO.stableSort_pairwise SMO.candDescLe SMO.candDescLe_total
          SMO.candDescLe_trans (SMO.reviewCandidates store cards)
        rw [hsl] at hpw
        constructor
        · exact hperm.mem_iff.mp (List.mem_cons_self x tl)
        · intro c hcmem
          rcases List.mem_cons.mp (hperm.mem_iff.mpr hcmem) with rfl | htl
          · right
            exact ⟨rfl, le_refl _⟩
          · have hle := List.rel_of_pairwise_cons hpw htl
            simpa only [SMO.candDescLe, SMO.keyLeB, SMO.candKey,
              decide_eq_true_eq] using hle

/-- C3 witness (Scenario B): with cards of ratings `[5, 3, 5]` and text
lengths `[20, 50, 80]`, discovery returns the third card, and the
theorem confirms it is a candidate. -/
theorem SMO.find_best_review_spec_witness :
    SMO.find_best_review [] SMO.scenarioBCards = some SMO.cardB3 ∧
    SMO.cardB3 ∈ SMO.reviewCandidates [] SMO.scenarioBCards :=
  ⟨by decide,
    ((SMO.find_best_review_spec [] SMO.scenarioBCards).2 SMO.cardB3 (by decide)).1⟩

/-- C5 counterexample: with two same-day records carrying sequence
letters `a` and `c`, `generate_uid` produces `tw-0101c`, which collides
with an already-stored uid — the claimed unconditional uniqueness fails. -/
theorem SMO.generate_uid_collision :
    (SMO.uidBadStore.map SMO.Post.uid).contains
      (SMO.generate_uid SMO.uidBadStore "0101") = true := by decide

/-- C5 (amended): if the same-day records' uids are exactly the prefix
followed by the first `k` letters of the alphabet (the states sequential
generate-then-save use produces), and fewer than 26 records share the
day, then the uid generated next differs from every stored uid. -/
theorem SMO.generate_uid_fresh (store : List SMO.Post) (today : String)
    (hseq : ∀ p ∈ store, SMO.startswith ("tw-" ++ today) p.uid = true →
      p.uid ∈ (List.range
          (store.filter (fun q => SMO.startswith ("tw-" ++ today) q.uid)).length).map
        (fun i => ("tw-" ++ today).push (Char.ofNat (97 + i))))
    (hk : (store.filter (fun q => SMO.startswith ("tw-" ++ today) q.uid)).length < 26) :
    ∀ p ∈ store, p.uid ≠ SMO.generate_uid store today := by
  intro p hp heq
  have hsw : SMO.startswith ("tw-" ++ today) p.uid = true := by
    rw [heq]
    exact SMO.startswith_push _ _
  have hmem := hseq p hp hsw
  rw [List.mem_map] at hmem
  obtain ⟨i, hi, hpi⟩ := hmem
  rw [List.mem_range] at hi
  have hgen : p.uid = ("tw-" ++ today).push
      (Char.ofNat (97 +
        (store.filter (fun q => SMO.startswith ("tw-" ++ today) q.uid)).length)) := heq
  have hchar := SMO.push_right_inj (hpi.trans hgen)
  have := SMO.char_seq_inj i (lt_trans hi hk) _ hk hchar
  omega

/-- C5 witness: on the concrete one-record sequential store, the amended
theorem shows the stored uid `tw-0101a` differs from the next generated
uid. -/
theorem SMO.generate_uid_fresh_witness :
    ¬ ("tw-0101a" = SMO.generate_uid SMO.uidSeqStore "0101") := by
  intro h
  exact SMO.generate_uid_fresh SMO.uidSeqStore "0101" (by decide) (by decide)
    SMO.uidSeqPost (List.mem_singleton.mpr rfl) h

/-- C6: with exactly `k` stored records whose uid starts with the day
prefix `tw-<today>`, the generated uid carries sequence letter
`chr(ord('a') + k)`; saving that record and generating again the same day
yields the next letter. -/
theorem SMO.uid_roundtrip (store : List SMO.Post) (today now path : String)
    (text : List Char) (rating : Nat) (k : Nat)
    (hk : (store.filter (fun q => SMO.startswith ("tw-" ++ today) q.uid)).length = k) :
    SMO.generate_uid store today = ("tw-" ++ today).push (Char.ofNat (97 + k)) ∧
    SMO.generate_uid (SMO.save_post store today now path text rating none).2 today
      = ("tw-" ++ today).push (Char.ofNat (97 + (k + 1))) := by
  constructor
  · simp only [SMO.generate_uid]
    rw [hk]
  · simp only [SMO.generate_uid, SMO.save_post]
    rw [List.filter_append, List.length_append, hk]
    have hpre := SMO.startswith_push ("tw-" ++ today) (Char.ofNat (97 + k))
    simp only [List.filter_cons, List.filter_nil, hpre, if_true, List.length_cons,
      List.length_nil]

/-- C6 witness: from the empty store on day `0101`, the generated uid is
`tw-0101a`, and after saving that record the next generated uid is
`tw-0101b`. -/
theorem SMO.uid_roundtrip_witness :
    SMO.generate_uid [] "0101" = "tw-0101a" ∧
    SMO.generate_uid
      (SMO.save_post [] "0101" "2025-01-01T00:00:00" "screenshots/p.png"
        "Great place".toList 5 none).2 "0101" = "tw-0101b" := by
  have h := SMO.uid_roundtrip [] "0101" "2025-01-01T00:00:00" "screenshots/p.png"
    "Great place".toList 5 0 (by decide)
  exact ⟨h.1.trans (by decide), h.2.trans (by decide)⟩

/-- C10: every Post Record appended by `save_post` has status `Pending`,
a media list holding exactly the one artifact path just produced, source
`google-maps`, a non-null `createdAt`, and null `scheduledAt`,
`approvedAt`, `postedAt`, `tweetId`, `tweetUrl`, `igPostId` and
`igPermalink`. -/
theorem SMO.save_post_fields (store : List SMO.Post) (today now path : String)
    (text : List Char) (rating : Nat) (pool : Option String) :
    let p := (SMO.save_post store today now path text rating pool).1
    p.status = "Pending" ∧ p.media = [path] ∧ p.source = "google-maps" ∧
    p.createdAt = some now ∧ p.scheduledAt = none ∧ p.approvedAt = none ∧
    p.postedAt = none ∧ p.tweetId = none ∧ p.tweetUrl = none ∧
    p.igPostId = none ∧ p.igPermalink = none :=
  ⟨rfl, rfl, rfl, rfl, rfl, rfl, rfl, rfl, rfl, rfl, rfl⟩

namespace SMO

/-! ### Helper lemmas for the capture pipeline -/

lemma dup_eq_of_fst_true {store : List Post} {t : List Char}
    (h : (is_duplicate_review store t).1 = true) :
    is_duplicate_review store t
      = (true, (is_duplicate_review store t).2.1, (is_duplicate_review store t).2.2) := by
  cases hd : is_duplicate_review store t with
  | mk b rest =>
    rw [hd] at h
    cases rest with
    | mk u st =>
      simp at h
      simp [h]

lemma fallbackResult_parts (env : CaptureEnv) (store : List Post) :
    ((fallbackResult env store).1 = .failure → (fallbackResult env store).2 = store) ∧
    (∀ u st t, (fallbackResult env store).1 = .duplicate u st t →
      (fallbackResult env store).2 = store ∧
        is_duplicate_review store t = (true, u, st)) ∧
    ((fallbackResult env store).2 ≠ store →
      (∃ p, (fallbackResult env store).2 = store ++ [p]) ∧ env.renderOk = true) := by
  unfold fallbackResult
  cases hd : (is_duplicate_review store fallbackText).1 with
  | true =>
    simp only [if_true]
    refine ⟨by simp, ?_, by simp⟩
    intro u st t h
    simp only [CaptureResult.duplicate.injEq] at h
    obtain ⟨hu, hst, ht⟩ := h
    subst hu; subst hst; subst ht
    exact ⟨trivial, dup_eq_of_fst_true hd⟩
  | false =>
    simp only [Bool.false_eq_true, if_false]
    cases hr : env.renderOk with
    | true =>
      simp only [if_true]
      refine ⟨by simp, by simp, ?_⟩
      intro _
      exact ⟨⟨_, rfl⟩, trivial⟩
    | false =>
      simp only [Bool.false_eq_true, if_false]
      refine ⟨by simp, by simp, by simp⟩

lemma directResult_parts (env : CaptureEnv) (store : List Post)
    (r : CaptureResult × List Post) (h : directResult env store = some r) :
    ((r.1 = .failure → r.2 = store) ∧
     (∀ u st t, r.1 = .duplicate u st t →
       r.2 = store ∧ is_duplicate_review store t = (true, u, st)) ∧
     (r.2 ≠ store → (∃ p, r.2 = store ++ [p]) ∧ env.screenshotOk = true)) := by
  unfold directResult at h
  split at h
  · split at h
    · split at h
      · rename_i best hfb hd
        simp only [Option.some.injEq] at h
        subst h
        refine ⟨by simp, ?_, by simp⟩
        intro u st t hx
        simp only [CaptureResult.duplicate.injEq] at hx
        obtain ⟨hu, hst, ht⟩ := hx
        subst hu; subst hst; subst ht
        exact ⟨rfl, dup_eq_of_fst_true hd⟩
      · split at h
        · rename_i best hfb hd hs
          simp only [Option.some.injEq] at h
          subst h
          refine ⟨by simp, by simp, ?_⟩
          intro _
          exact ⟨⟨_, rfl⟩, hs⟩
        · simp at h
    · simp at h
  · simp at h

end SMO

/-- C4: in every capture run, the store is left unchanged on a duplicate
outcome (which carries the uid and status the Duplicate Index reported
for that text) and on a failed run, and the store changes only by
appending one record, which requires the element screenshot or the
fallback render to have succeeded in that run. -/
theorem SMO.capture_store_safety (env : SMO.CaptureEnv) (store : List SMO.Post) :
    ((SMO.capture_run env store).1 = .failure →
      (SMO.capture_run env store).2 = store) ∧
    (∀ u st t, (SMO.capture_run env store).1 = .duplicate u st t →
      (SMO.capture_run env store).2 = store ∧
        SMO.is_duplicate_review store t = (true, u, st)) ∧
    ((SMO.capture_run env store).2 ≠ store →
      (∃ p, (SMO.capture_run env store).2 = store ++ [p]) ∧
        (env.screenshotOk = true ∨ env.renderOk = true)) := by
  unfold SMO.capture_run
  cases hnav : env.navFound with
  | false =>
    simp only [Bool.not_false, if_true]
    refine ⟨by simp, by simp, by simp⟩
  | true =>
    simp only [Bool.not_true, Bool.false_eq_true, if_false]
    cases hdir : SMO.directResult env store with
    | some r =>
      obtain ⟨h1, h2, h3⟩ := SMO.directResult_parts env store r hdir
      exact ⟨h1, h2, fun hne => ⟨(h3 hne).1, Or.inl (h3 hne).2⟩⟩
    | none =>
      obtain ⟨h1, h2, h3⟩ := SMO.fallbackResult_parts env store
      exact ⟨h1, h2, fun hne => ⟨(h3 hne).1, Or.inr (h3 hne).2⟩⟩

/-- C4 witness: a run with failed reviews tab and failed renderer ends in
failure, and the theorem confirms the empty store is unchanged. -/
theorem SMO.capture_store_safety_witness :
    (SMO.capture_run SMO.failedRunEnv []).1 = .failure ∧
    (SMO.capture_run SMO.failedRunEnv []).2 = [] :=
  ⟨by decide, (SMO.capture_store_safety SMO.failedRunEnv []).1 (by decide)⟩

/-- C7 counterexample: for a bounding box at the viewport origin, the
code's fallback clip keeps width `box + 32` after clamping the origin,
so it is not the box expanded by exactly 16 px on all sides clamped to
the 1280×900 viewport: the produced clip is 132×82 where the claimed one
is 116×66. -/
theorem SMO.screenshot_fallback_counterexample :
    SMO.screenshot_review_card false (some SMO.cornerBox) true
      = (true, some (SMO.fallback_clip SMO.cornerBox)) ∧
    SMO.fallback_clip SMO.cornerBox ≠ SMO.spec_clip 1280 900 SMO.cornerBox := by
  decide

/-- C7 (amended): when the primary screenshot fails and the bounding box
is obtainable, the fallback clip shifts the origin by 16 px clamped at
zero and grows the size by exactly 32 px, with no clamp against the
right or bottom viewport edges; and capture reports false exactly when
the primary fails and either no bounding box is obtainable or the
clipped shot also fails. -/
theorem SMO.screenshot_fallback_amended :
    (∀ (b : SMO.BBox) (clipOk : Bool),
      (SMO.screenshot_review_card false (some b) clipOk).2
        = (if clipOk then some (SMO.spec_clip_amended b) else none)) ∧
    (∀ (primaryOk : Bool) (box : Option SMO.BBox) (clipOk : Bool),
      ((SMO.screenshot_review_card primaryOk box clipOk).1 = false ↔
        (primaryOk = false ∧ (box = none ∨ clipOk = false)))) := by
  constructor
  · intro b clipOk
    cases clipOk <;>
      simp [SMO.screenshot_review_card, SMO.fallback_clip, SMO.spec_clip_amended]
  · intro pOk box cOk
    cases pOk <;> cases box <;> cases cOk <;> simp [SMO.screenshot_review_card]

/-- C8: whenever the template backend is unavailable or fails — template
file missing, Playwright not importable, browser launch failing, or the
template render raising — `render_card` returns exactly what the raster
(Pillow) backend produces at the shared output path; and the call is
fatal (an error) precisely when such a template failure meets an
unavailable Pillow backend. -/
theorem SMO.render_card_fallback (env : SMO.RenderEnv) :
    ((env.templateExists = false ∨ env.playwrightImportable = false ∨
        env.browserLaunches = false ∨ env.templateRenderOk = false) →
      SMO.render_card_run env
        = SMO.render_card_pillow_run env (SMO.render_output_path env)) ∧
    (∀ e, SMO.render_card_run env = .error e ↔
      (env.pillowOk = false ∧
        (env.templateExists = false ∨ env.playwrightImportable = false ∨
          env.browserLaunches = false ∨ env.templateRenderOk = false) ∧
        e = "Pillow is required for browser-free rendering.")) := by
  obtain ⟨te, pi, bl, tr, po, ts⟩ := env
  cases te <;> cases pi <;> cases bl <;> cases tr <;> cases po <;>
    simp [SMO.render_card_run, SMO.render_card_pillow_run,
      SMO.render_output_path, eq_comm]

/-- C8 witness: with the template file missing and Pillow available,
`render_card` returns the Pillow backend's PNG at the timestamped path. -/
theorem SMO.render_card_fallback_witness :
    SMO.render_card_run ⟨false, true, true, true, true, "20250101_000000"⟩
      = .ok ("screenshots/review_card_20250101_000000.png", .pillow) := by
  have h := (SMO.render_card_fallback
    ⟨false, true, true, true, true, "20250101_000000"⟩).1 (Or.inl rfl)
  rw [h]
  rfl

set_option maxRecDepth 4000 in
/-- C9 counterexample: two texts of identical length 117 — one unbroken
word wrapping to three lines, two 58-character words wrapping to two —
produce different canvas heights, so the output dimensions are not a
function of the text's length alone. -/
theorem SMO.pillow_height_counterexample :
    SMO.sameLengthTextA.length = SMO.sameLengthTextB.length ∧
    (SMO.render_card_pillow_dims "A" 5 SMO.sameLengthTextA "1 week ago" "S" "").2 ≠
      (SMO.render_card_pillow_dims "A" 5 SMO.sameLengthTextB "1 week ago" "S" "").2 := by
  decide

/-- C9 (amended): the raster backend's canvas dimensions are a pure
function of the text itself (through its wrapped line count): two
invocations with the same text produce pixel-identical dimensions — in
particular identical heights — for any names, ratings, dates, stores and
badges, independent of invocation time. -/
theorem SMO.pillow_height_text_only (n1 n2 : String) (r1 r2 : Nat)
    (d1 d2 s1 s2 b1 b2 : String) (text : List Char) :
    SMO.render_card_pillow_dims n1 r1 text d1 s1 b1
      = SMO.render_card_pillow_dims n2 r2 text d2 s2 b2 := rfl
